import Mathlib

/-!
# Verification of the `zillow` Go API client

Shallow embedding of `src/zillow.go`: a typed client that builds HTTP GET
query strings from request structs and decodes XML response bodies into
result structs.  Machine `int` is modelled as `Int`; Go `float64` fields are
modelled by an abstract carrier type `F` together with an abstract parser
`parseF : String → Except String F` standing for the standard library's
`TrimSpace` + `strconv.ParseFloat` composite, and a zero value `f0 : F`.
The HTTP transport is modelled as an oracle `Fetch` mapping a URL to either
a transport error or a response (status code plus body); a body is either a
well-formed XML tree or a syntactically malformed byte stream carrying its
parse error.
-/

namespace ZillowClient

/-! ## Go standard-library string conversions used by the client -/

/-- Go `strconv.FormatBool`. -/
def formatBool (b : Bool) : String :=
  if b then "true" else "false"

/-- Decimal digits of a natural number, most significant first
(`strconv.Itoa` on non-negative input, as a character list). -/
def natDigits (n : Nat) : List Char :=
  if h : n < 10 then [Char.ofNat (48 + n)]
  else natDigits (n / 10) ++ [Char.ofNat (48 + n % 10)]
decreasing_by
  exact Nat.div_lt_self (by omega) (by omega)

/-- Go `strconv.Itoa`: base-10 decimal rendering of an `int`. -/
def itoa (i : Int) : String :=
  if i < 0 then "-" ++ String.mk (natDigits i.natAbs)
  else String.mk (natDigits i.natAbs)

/-- Value of an ASCII decimal digit, `none` for any other character
(`strconv.ParseInt`'s per-digit check). -/
def digitVal (c : Char) : Option Nat :=
  if 48 ≤ c.toNat ∧ c.toNat ≤ 57 then some (c.toNat - 48) else none

/-- Parse a non-empty all-digit character list as a natural number. -/
def parseDigits : List Char → Option Nat
  | [] => none
  | cs => go cs 0
where
  go : List Char → Nat → Option Nat
    | [], acc => some acc
    | c :: cs, acc =>
      match digitVal c with
      | none => none
      | some d => go cs (acc * 10 + d)

/-- Go `strconv.ParseInt(s, 10, 64)` with the optional sign handling:
`none` on the empty string or any non-digit. -/
def parseIntCore (s : String) : Option Int :=
  match s.toList with
  | [] => none
  | c :: rest =>
    if c = '-' then (parseDigits rest).map (fun n => -(n : Int))
    else if c = '+' then (parseDigits rest).map (fun n => (n : Int))
    else (parseDigits (c :: rest)).map (fun n => (n : Int))

/-- White-space characters trimmed by `strings.TrimSpace` (the ASCII ones). -/
def isSpaceChar (c : Char) : Bool :=
  c = ' ' || c = '\t' || c = '\n' || c = '\x0b' || c = '\x0c' || c = '\r'

/-- Go `strings.TrimSpace`. -/
def trimSpace (s : String) : String :=
  String.mk (((s.toList.dropWhile isSpaceChar).reverse.dropWhile isSpaceChar).reverse)

/-- Go `encoding/xml` `copyValue` for integer fields: `strings.TrimSpace`
followed by `strconv.ParseInt`, surfacing a decode error on failure. -/
def parseXmlInt (s : String) : Except String Int :=
  match parseIntCore (trimSpace s) with
  | some i => .ok i
  | none => .error ("strconv.ParseInt: parsing " ++ s ++ ": invalid syntax")

/-- Go `strconv.ParseBool`: exactly the listed literals are accepted. -/
def parseBoolCore (s : String) : Option Bool :=
  if s = "1" ∨ s = "t" ∨ s = "T" ∨ s = "TRUE" ∨ s = "true" ∨ s = "True" then
    some true
  else if s = "0" ∨ s = "f" ∨ s = "F" ∨ s = "FALSE" ∨ s = "false" ∨ s = "False" then
    some false
  else none

/-- Go `encoding/xml` `copyValue` for boolean fields: `strings.TrimSpace`
followed by `strconv.ParseBool`. -/
def parseXmlBool (s : String) : Except String Bool :=
  match parseBoolCore (trimSpace s) with
  | some b => .ok b
  | none => .error ("strconv.ParseBool: parsing " ++ s ++ ": invalid syntax")

/-! ## `net/url` query encoding (`url.Values.Encode`) -/

/-- Characters `net/url`'s `shouldEscape` leaves untouched in a query
component: ASCII letters, digits, and `-`, `_`, `.`, `~`. -/
def isUnreservedQueryChar (c : Char) : Bool :=
  (65 ≤ c.toNat && c.toNat ≤ 90) || (97 ≤ c.toNat && c.toNat ≤ 122) ||
  (48 ≤ c.toNat && c.toNat ≤ 57) ||
  c = '-' || c = '_' || c = '.' || c = '~'

/-- Uppercase hexadecimal digit for a value below 16. -/
def hexDigitChar (n : Nat) : Char :=
  if n < 10 then Char.ofNat (48 + n) else Char.ofNat (55 + n)

/-- UTF-8 bytes of a Unicode scalar value, as naturals below 256. -/
def utf8Bytes (n : Nat) : List Nat :=
  if n < 128 then [n]
  else if n < 2048 then [192 + n / 64, 128 + n % 64]
  else if n < 65536 then [224 + n / 4096, 128 + (n / 64) % 64, 128 + n % 64]
  else [240 + n / 262144, 128 + (n / 4096) % 64, 128 + (n / 64) % 64, 128 + n % 64]

/-- Percent-encode one byte as `%XX`, uppercase hex. -/
def percentByte (b : Nat) : String :=
  String.mk ['%', hexDigitChar (b / 16), hexDigitChar (b % 16)]

/-- Go `url.QueryEscape` on one character: unreserved characters are kept,
a space becomes `+`, everything else is percent-encoded byte-wise. -/
def escapeChar (c : Char) : String :=
  if isUnreservedQueryChar c then String.mk [c]
  else if c = ' ' then "+"
  else String.join ((utf8Bytes c.toNat).map percentByte)

/-- Go `url.QueryEscape`. -/
def queryEscape (s : String) : String :=
  String.join (s.toList.map escapeChar)

/-- The client only ever stores one value per key, so `url.Values`
(`map[string][]string` with singleton lists) is a key/value list. -/
def Values : Type := List (String × String)

/-- Lexicographic `≤` on character lists, by Unicode scalar value.  For
UTF-8 encoded strings this is exactly Go's byte-wise string order (UTF-8
preserves code-point order), the order `sort.Strings` uses. -/
def lexLe : List Char → List Char → Bool
  | [], _ => true
  | _ :: _, [] => false
  | a :: as, b :: bs =>
    if a.toNat < b.toNat then true
    else if b.toNat < a.toNat then false
    else lexLe as bs

/-- Go's string `<=` as `sort.Strings` sees it. -/
def keyLe (a b : String) : Bool := lexLe a.toList b.toList

/-- Insert a pair into a list sorted by key (ascending `sort.Strings`
order on the keys, the order `url.Values.Encode` produces). -/
def insertValue (p : String × String) : List (String × String) → List (String × String)
  | [] => [p]
  | q :: qs => if keyLe p.1 q.1 then p :: q :: qs else q :: insertValue p qs

/-- Sort a key/value list by key, as `url.Values.Encode` sorts the map keys. -/
def sortValues : List (String × String) → List (String × String)
  | [] => []
  | p :: ps => insertValue p (sortValues ps)

/-- Join strings with a separator between consecutive elements. -/
def joinSep (sep : String) : List String → String
  | [] => ""
  | [a] => a
  | a :: as => a ++ sep ++ joinSep sep as

/-- Go `url.Values.Encode`: keys in ascending order, each pair rendered as
`QueryEscape(k)=QueryEscape(v)`, pairs joined by `&`. -/
def encodeValues (vs : Values) : String :=
  joinSep "&" ((sortValues vs).map (fun p => queryEscape p.1 ++ "=" ++ queryEscape p.2))

/-! ## XML documents

A well-formed XML body is a tree of elements and character data.  The
decoders below mirror `encoding/xml` unmarshalling as directed by the
struct tags in `src/zillow.go`. -/

/-- An XML node: an element with a name, attributes and children, or
character data. -/
inductive Xml where
  | elem (name : String) (attrs : List (String × String)) (children : List Xml)
  | text (s : String)
deriving Repr

/-- Element name (`""` for character data). -/
def Xml.name : Xml → String
  | .elem n _ _ => n
  | .text _ => ""

/-- Attribute list (empty for character data). -/
def Xml.attrs : Xml → List (String × String)
  | .elem _ a _ => a
  | .text _ => []

/-- Child nodes (empty for character data). -/
def Xml.children : Xml → List Xml
  | .elem _ _ c => c
  | .text _ => []

/-- Concatenated character data directly inside an element
(the `xml:",chardata"` source). -/
def Xml.charData (x : Xml) : String :=
  String.join (x.children.map fun c =>
    match c with
    | .text s => s
    | .elem _ _ _ => "")

/-- The child elements with a given name, in document order. -/
def Xml.childrenNamed (x : Xml) (n : String) : List Xml :=
  x.children.filter fun c =>
    match c with
    | .elem m _ _ => m == n
    | .text _ => false

/-- The first child element with a given name, if any. -/
def Xml.firstChild (x : Xml) (n : String) : Option Xml :=
  (x.childrenNamed n).head?

/-- Follow a `a>b>c` tag path, taking the first matching child at each
step (how `encoding/xml` fills a non-slice field). -/
def Xml.descend : List String → Xml → Option Xml
  | [], x => some x
  | n :: ns, x =>
    match x.firstChild n with
    | none => none
    | some c => Xml.descend ns c

/-- All elements reached by a `a>b>c` tag path, in document order (how
`encoding/xml` fills a slice field). -/
def Xml.descendAll : List String → Xml → List Xml
  | [], x => [x]
  | n :: ns, x => (x.childrenNamed n).flatMap (Xml.descendAll ns)

/-- A string field with tag `xml:"path"`: the matched element's character
data, the zero value `""` when no element matches. -/
def childString (x : Xml) (path : List String) : String :=
  match Xml.descend path x with
  | none => ""
  | some e => e.charData

/-- An int field with tag `xml:"path"`: missing element leaves the zero
value, a present element's character data must parse. -/
def childInt (x : Xml) (path : List String) : Except String Int :=
  match Xml.descend path x with
  | none => .ok 0
  | some e => parseXmlInt e.charData

/-- A bool field with tag `xml:"path"`. -/
def childBool (x : Xml) (path : List String) : Except String Bool :=
  match Xml.descend path x with
  | none => .ok false
  | some e => parseXmlBool e.charData

/-- A float64 field with tag `xml:"path"`, via the abstract float parser. -/
def childFloat {F : Type} (parseF : String → Except String F) (f0 : F)
    (x : Xml) (path : List String) : Except String F :=
  match Xml.descend path x with
  | none => .ok f0
  | some e => parseF e.charData

/-- A struct field with tag `xml:"path"`: missing element leaves the zero
value `z`, a present element is unmarshalled by `f`. -/
def childStruct {β : Type} (x : Xml) (path : List String)
    (f : Xml → Except String β) (z : β) : Except String β :=
  match Xml.descend path x with
  | none => .ok z
  | some e => f e

/-- Unmarshal a list of elements in order, stopping at the first error. -/
def mapExcept {α β : Type} (f : α → Except String β) : List α → Except String (List β)
  | [] => .ok []
  | a :: as =>
    (f a).bind fun b =>
    (mapExcept f as).bind fun bs =>
    .ok (b :: bs)

/-- Unmarshal every element on the path, in document order, collecting
errors (a slice-of-structs field). -/
def childStructs {β : Type} (x : Xml) (path : List String)
    (f : Xml → Except String β) : Except String (List β) :=
  mapExcept f (Xml.descendAll path x)

/-- A string field with tag `xml:"name,attr"`: the attribute's raw value,
`""` when absent. -/
def attrString (x : Xml) (n : String) : String :=
  (x.attrs.lookup n).getD ""

/-- An int field with tag `xml:"name,attr"`. -/
def attrInt (x : Xml) (n : String) : Except String Int :=
  match x.attrs.lookup n with
  | none => .ok 0
  | some s => parseXmlInt s

/-- A float64 field with tag `xml:"name,attr"`. -/
def attrFloat {F : Type} (parseF : String → Except String F) (f0 : F)
    (x : Xml) (n : String) : Except String F :=
  match x.attrs.lookup n with
  | none => .ok f0
  | some s => parseF s

/-! ## Data model (`src/zillow.go` struct declarations)

`F` is the abstract carrier for Go `float64` fields. -/

/-- Go struct `Message`. -/
structure Message where
  Text : String
  Code : Int
  LimitWarning : Bool
deriving Repr, DecidableEq

/-- Go struct `Address` (`Latitude`/`Longitude` are `float64`). -/
structure Address (F : Type) where
  Street : String
  Zipcode : String
  City : String
  State : String
  Latitude : F
  Longitude : F
deriving Repr, DecidableEq

/-- Go struct `Value`: a monetary amount with a currency attribute. -/
structure Value where
  Currency : String
  Value : Int
deriving Repr, DecidableEq

/-- Go struct `ValueChange`. -/
structure ValueChange where
  Duration : Int
  Currency : String
  Value : Int
deriving Repr, DecidableEq

/-- Go struct `Zestimate`. -/
structure Zestimate where
  Amount : Value
  LastUpdated : String
  ValueChange : ValueChange
  Low : Value
  High : Value
  Percentile : String
deriving Repr, DecidableEq

/-- Go struct `ZestimateRequest`. -/
structure ZestimateRequest where
  Zpid : String
  Rentzestimate : Bool
deriving Repr, DecidableEq

/-- Go struct `Region` (`ZIndexOneYearChange` is `float64`). -/
structure Region (F : Type) where
  ID : String
  «Type» : String
  Name : String
  ZIndex : String
  ZIndexOneYearChange : F
  Overview : String
  ForSaleByOwner : String
  ForSale : String
deriving Repr, DecidableEq

/-- Go struct `Links`. -/
structure Links where
  HomeDetails : String
  GraphsAndData : String
  MapThisHome : String
  MyZestimator : String
  Comparables : String
deriving Repr, DecidableEq

/-- Go struct `ZestimateResult` (root element `zestimate`). -/
structure ZestimateResult (F : Type) where
  Request : ZestimateRequest
  Message : Message
  Links : Links
  Address : Address F
  Zestimate : Zestimate
  LocalRealEstate : List (Region F)
  ZipcodeID : String
  CityID : String
  CountyID : String
  StateID : String
deriving Repr, DecidableEq

/-- Go struct `SearchRequest`. -/
structure SearchRequest where
  Address : String
  CityStateZip : String
  Rentzestimate : Bool
deriving Repr, DecidableEq

/-- Go struct `SearchResult` (element `result`). -/
structure SearchResult (F : Type) where
  Zpid : String
  Links : Links
  Address : Address F
  Zestimate : Zestimate
  LocalRealEstate : List (Region F)
deriving Repr, DecidableEq

/-- Go struct `SearchResults` (root element `searchresults`). -/
structure SearchResults (F : Type) where
  Request : SearchRequest
  Message : Message
  Results : List (SearchResult F)
deriving Repr, DecidableEq

/-- Go struct `ChartRequest` (`Width`/`Height` are `int`). -/
structure ChartRequest where
  Zpid : String
  UnitType : String
  Width : Int
  Height : Int
  Duration : String
deriving Repr, DecidableEq

/-- Go struct `ChartResult` (root element `chart`). -/
structure ChartResult where
  Request : ChartRequest
  Message : Message
  Url : String
deriving Repr, DecidableEq

/-- Go struct `CompsRequest` (`Count` is `int`). -/
structure CompsRequest where
  Zpid : String
  Count : Int
  Rentzestimate : Bool
deriving Repr, DecidableEq

/-- Go struct `Principal`. -/
structure Principal (F : Type) where
  Zpid : String
  Links : Links
  Address : Address F
  Zestimate : Zestimate
deriving Repr, DecidableEq

/-- Go struct `Comp` (`Score` is a `float64` attribute). -/
structure Comp (F : Type) where
  Score : F
  Zpid : String
  Links : Links
  Address : Address F
  Zestimate : Zestimate
deriving Repr, DecidableEq

/-- Go struct `CompsResult` (root element `comps`). -/
structure CompsResult (F : Type) where
  Request : CompsRequest
  Message : Message
  Principal : Principal F
  Comparables : List (Comp F)
deriving Repr, DecidableEq

/-! ## XML unmarshalling, directed by the struct tags -/

section Unmarshal

variable {F : Type} (parseF : String → Except String F) (f0 : F)

/-- Zero value of `Message`. -/
def zeroMessage : Message := ⟨"", 0, false⟩

/-- Zero value of `Address`. -/
def zeroAddress : Address F := ⟨"", "", "", "", f0, f0⟩

/-- Zero value of `Value`. -/
def zeroValue : Value := ⟨"", 0⟩

/-- Zero value of `ValueChange`. -/
def zeroValueChange : ValueChange := ⟨0, "", 0⟩

/-- Zero value of `Zestimate`. -/
def zeroZestimate : Zestimate := ⟨zeroValue, "", zeroValueChange, zeroValue, zeroValue, ""⟩

/-- Zero value of `Links`. -/
def zeroLinks : Links := ⟨"", "", "", "", ""⟩

/-- Zero value of `ZestimateRequest`. -/
def zeroZestimateRequest : ZestimateRequest := ⟨"", false⟩

/-- Zero value of `SearchRequest`. -/
def zeroSearchRequest : SearchRequest := ⟨"", "", false⟩

/-- Zero value of `ChartRequest`. -/
def zeroChartRequest : ChartRequest := ⟨"", "", 0, 0, ""⟩

/-- Zero value of `CompsRequest`. -/
def zeroCompsRequest : CompsRequest := ⟨"", 0, false⟩

/-- Zero value of `Principal`. -/
def zeroPrincipal : Principal F := ⟨"", zeroLinks, zeroAddress f0, zeroZestimate⟩

/-- Unmarshal a `Message` element (tags `text`, `code`, `limit-warning`). -/
def unmarshalMessage (x : Xml) : Except String Message :=
  (childInt x ["code"]).bind fun code =>
  (childBool x ["limit-warning"]).bind fun lw =>
  .ok ⟨childString x ["text"], code, lw⟩

/-- Unmarshal an `Address` element. -/
def unmarshalAddress (x : Xml) : Except String (Address F) :=
  (childFloat parseF f0 x ["latitude"]).bind fun lat =>
  (childFloat parseF f0 x ["longitude"]).bind fun lon =>
  .ok ⟨childString x ["street"], childString x ["zipcode"], childString x ["city"],
    childString x ["state"], lat, lon⟩

/-- Unmarshal a `Value` element (`currency` attribute, chardata amount). -/
def unmarshalValue (x : Xml) : Except String Value :=
  (parseXmlInt x.charData).bind fun v =>
  .ok ⟨attrString x "currency", v⟩

/-- Unmarshal a `ValueChange` element. -/
def unmarshalValueChange (x : Xml) : Except String ValueChange :=
  (attrInt x "duration").bind fun d =>
  (parseXmlInt x.charData).bind fun v =>
  .ok ⟨d, attrString x "currency", v⟩

/-- Unmarshal a `Zestimate` element (tags `amount`, `last-updated`,
`valueChange`, `valuationRange>low`, `valuationRange>high`, `percentile`). -/
def unmarshalZestimate (x : Xml) : Except String Zestimate :=
  (childStruct x ["amount"] unmarshalValue zeroValue).bind fun amount =>
  (childStruct x ["valueChange"] unmarshalValueChange zeroValueChange).bind fun vc =>
  (childStruct x ["valuationRange", "low"] unmarshalValue zeroValue).bind fun low =>
  (childStruct x ["valuationRange", "high"] unmarshalValue zeroValue).bind fun high =>
  .ok ⟨amount, childString x ["last-updated"], vc, low, high, childString x ["percentile"]⟩

/-- Unmarshal a `Links` element. -/
def unmarshalLinks (x : Xml) : Except String Links :=
  .ok ⟨childString x ["homedetails"], childString x ["graphsanddata"],
    childString x ["mapthishome"], childString x ["myzestimator"],
    childString x ["comparables"]⟩

/-- Unmarshal a `Region` element (`id`/`type`/`name` attributes,
`zindexValue`, `zindexOneYearChange`, `links>…`). -/
def unmarshalRegion (x : Xml) : Except String (Region F) :=
  (childFloat parseF f0 x ["zindexOneYearChange"]).bind fun zc =>
  .ok ⟨attrString x "id", attrString x "type", attrString x "name",
    childString x ["zindexValue"], zc, childString x ["links", "overview"],
    childString x ["links", "forSaleByOwner"], childString x ["links", "forSale"]⟩

/-- Unmarshal a `ZestimateRequest` echo element (tags `zpid`, `rentzestimate`). -/
def unmarshalZestimateRequest (x : Xml) : Except String ZestimateRequest :=
  (childBool x ["rentzestimate"]).bind fun rz =>
  .ok ⟨childString x ["zpid"], rz⟩

/-- Unmarshal a `SearchRequest` echo element. -/
def unmarshalSearchRequest (x : Xml) : Except String SearchRequest :=
  (childBool x ["rentzestimate"]).bind fun rz =>
  .ok ⟨childString x ["address"], childString x ["citystatezip"], rz⟩

/-- Unmarshal a `ChartRequest` echo element. -/
def unmarshalChartRequest (x : Xml) : Except String ChartRequest :=
  (childInt x ["width"]).bind fun w =>
  (childInt x ["height"]).bind fun h =>
  .ok ⟨childString x ["zpid"], childString x ["unit-type"], w, h,
    childString x ["chartDuration"]⟩

/-- Unmarshal a `CompsRequest` echo element. -/
def unmarshalCompsRequest (x : Xml) : Except String CompsRequest :=
  (childInt x ["count"]).bind fun c =>
  (childBool x ["rentzestimate"]).bind fun rz =>
  .ok ⟨childString x ["zpid"], c, rz⟩

/-- The `encoding/xml` mismatch error when the document's root element does
not match the result struct's `XMLName`. -/
def rootMismatch (want have_ : String) : String :=
  "expected element type <" ++ want ++ "> but have <" ++ have_ ++ ">"

/-- Unmarshal a `ZestimateResult` document (root `zestimate`). -/
def unmarshalZestimateResult (x : Xml) : Except String (ZestimateResult F) :=
  if x.name = "zestimate" then
    (childStruct x ["request"] unmarshalZestimateRequest zeroZestimateRequest).bind fun req =>
    (childStruct x ["message"] unmarshalMessage zeroMessage).bind fun msg =>
    (childStruct x ["response", "links"] unmarshalLinks zeroLinks).bind fun links =>
    (childStruct x ["response", "address"] (unmarshalAddress parseF f0) (zeroAddress f0)).bind fun addr =>
    (childStruct x ["response", "zestimate"] unmarshalZestimate zeroZestimate).bind fun zest =>
    (childStructs x ["response", "localRealEstate", "region"] (unmarshalRegion parseF f0)).bind fun lre =>
    .ok ⟨req, msg, links, addr, zest, lre,
      childString x ["response", "regions", "zipcode-id"],
      childString x ["response", "regions", "city-id"],
      childString x ["response", "regions", "county-id"],
      childString x ["response", "regions", "state-id"]⟩
  else .error (rootMismatch "zestimate" x.name)

/-- Unmarshal one `result` element of a search response. -/
def unmarshalSearchResult (x : Xml) : Except String (SearchResult F) :=
  (childStruct x ["links"] unmarshalLinks zeroLinks).bind fun links =>
  (childStruct x ["address"] (unmarshalAddress parseF f0) (zeroAddress f0)).bind fun addr =>
  (childStruct x ["zestimate"] unmarshalZestimate zeroZestimate).bind fun zest =>
  (childStructs x ["localRealEstate", "region"] (unmarshalRegion parseF f0)).bind fun lre =>
  .ok ⟨childString x ["zpid"], links, addr, zest, lre⟩

/-- Unmarshal a `SearchResults` document (root `searchresults`). -/
def unmarshalSearchResults (x : Xml) : Except String (SearchResults F) :=
  if x.name = "searchresults" then
    (childStruct x ["request"] unmarshalSearchRequest zeroSearchRequest).bind fun req =>
    (childStruct x ["message"] unmarshalMessage zeroMessage).bind fun msg =>
    (childStructs x ["response", "results", "result"] (unmarshalSearchResult parseF f0)).bind fun rs =>
    .ok ⟨req, msg, rs⟩
  else .error (rootMismatch "searchresults" x.name)

/-- Unmarshal a `ChartResult` document (root `chart`). -/
def unmarshalChartResult (x : Xml) : Except String ChartResult :=
  if x.name = "chart" then
    (childStruct x ["request"] unmarshalChartRequest zeroChartRequest).bind fun req =>
    (childStruct x ["message"] unmarshalMessage zeroMessage).bind fun msg =>
    .ok ⟨req, msg, childString x ["response", "url"]⟩
  else .error (rootMismatch "chart" x.name)

/-- Unmarshal a `Principal` element. -/
def unmarshalPrincipal (x : Xml) : Except String (Principal F) :=
  (childStruct x ["links"] unmarshalLinks zeroLinks).bind fun links =>
  (childStruct x ["address"] (unmarshalAddress parseF f0) (zeroAddress f0)).bind fun addr =>
  (childStruct x ["zestimate"] unmarshalZestimate zeroZestimate).bind fun zest =>
  .ok ⟨childString x ["zpid"], links, addr, zest⟩

/-- Unmarshal one `comp` element (`score` attribute plus property data). -/
def unmarshalComp (x : Xml) : Except String (Comp F) :=
  (attrFloat parseF f0 x "score").bind fun score =>
  (childStruct x ["links"] unmarshalLinks zeroLinks).bind fun links =>
  (childStruct x ["address"] (unmarshalAddress parseF f0) (zeroAddress f0)).bind fun addr =>
  (childStruct x ["zestimate"] unmarshalZestimate zeroZestimate).bind fun zest =>
  .ok ⟨score, childString x ["zpid"], links, addr, zest⟩

/-- Unmarshal a `CompsResult` document (root `comps`). -/
def unmarshalCompsResult (x : Xml) : Except String (CompsResult F) :=
  if x.name = "comps" then
    (childStruct x ["request"] unmarshalCompsRequest zeroCompsRequest).bind fun req =>
    (childStruct x ["message"] unmarshalMessage zeroMessage).bind fun msg =>
    (childStruct x ["response", "properties", "principal"] (unmarshalPrincipal parseF f0) (zeroPrincipal f0)).bind fun pr =>
    (childStructs x ["response", "properties", "comparables", "comp"] (unmarshalComp parseF f0)).bind fun cs =>
    .ok ⟨req, msg, pr, cs⟩
  else .error (rootMismatch "comps" x.name)

end Unmarshal

/-! ## The client (`src/zillow.go` lines 196–292) -/

/-- Go `const baseUrl`. -/
def baseUrl : String := "http://www.zillow.com/webservice/"

/-- Go `const zwsIdParam`. -/
def zwsIdParam : String := "zws-Id"

/-- Go `const zpidParam`. -/
def zpidParam : String := "zpid"

/-- Go `const rentzestimateParam`. -/
def rentzestimateParam : String := "rentzestimate"

/-- Go `const addressParam`. -/
def addressParam : String := "address"

/-- Go `const cityStateZipParam`. -/
def cityStateZipParam : String := "citystatezip"

/-- Go `const unitTypeParam`. -/
def unitTypeParam : String := "unit-type"

/-- Go `const widthParam`. -/
def widthParam : String := "width"

/-- Go `const heightParam`. -/
def heightParam : String := "height"

/-- Go `const chartDurationParam`. -/
def chartDurationParam : String := "chartDuration"

/-- Go `const countParam`. -/
def countParam : String := "count"

/-- Go `const getZestimatePath`. -/
def getZestimatePath : String := "GetZestimate"

/-- Go `const getSearchResults`. -/
def getSearchResults : String := "GetSearchResults"

/-- Go `const getChart`. -/
def getChart : String := "GetChart"

/-- Go `const getComps`. -/
def getComps : String := "GetComps"

/-- Go struct `zillow`: the client's immutable configuration. -/
structure zillow where
  zwsId : String
  url : String
deriving Repr, DecidableEq

/-- Go `NewZillow`: the factory binds the caller's key to the fixed base URL. -/
def NewZillow (zwsId : String) : zillow := ⟨zwsId, baseUrl⟩

/-- An HTTP response as the client sees it: a status code (which
`zillow.get` never reads) and a body.  The body of a response is either a
well-formed XML document or a malformed byte stream carrying the XML
syntax error its decoding raises. -/
structure HttpResponse where
  statusCode : Nat
  body : Except String Xml

/-- The transport: `http.Get`, as an oracle from a URL to a transport
error or a response. -/
def Fetch : Type := String → Except String HttpResponse

/-- Decode a response body into a result type: a malformed body surfaces
its syntax error, a well-formed document is unmarshalled
(`xml.NewDecoder(resp.Body).Decode(result)`). -/
def decodeBody {α : Type} (unmarshal : Xml → Except String α)
    (body : Except String Xml) : Except String α :=
  match body with
  | .error e => .error e
  | .ok x => unmarshal x

/-- The URL `zillow.get` builds: `z.url + "/" + servicePath + ".htm?" +
values.Encode()`. -/
def requestUrl (z : zillow) (servicePath : String) (values : Values) : String :=
  z.url ++ "/" ++ servicePath ++ ".htm?" ++ encodeValues values

/-- Go `func (z *zillow) get`: issue the GET, return a transport error
unchanged, otherwise decode the body and return a decode error unchanged,
otherwise succeed. -/
def zillow.get {α : Type} (fetch : Fetch) (z : zillow) (servicePath : String)
    (values : Values) (unmarshal : Xml → Except String α) : Except String α :=
  match fetch (requestUrl z servicePath values) with
  | .error err => .error err
  | .ok resp => decodeBody unmarshal resp.body

/-- The query parameters `GetZestimate` builds. -/
def zestimateValues (z : zillow) (request : ZestimateRequest) : Values :=
  [(zwsIdParam, z.zwsId),
   (zpidParam, request.Zpid),
   (rentzestimateParam, formatBool request.Rentzestimate)]

/-- The query parameters `GetSearchResults` builds. -/
def searchValues (z : zillow) (request : SearchRequest) : Values :=
  [(zwsIdParam, z.zwsId),
   (addressParam, request.Address),
   (cityStateZipParam, request.CityStateZip),
   (rentzestimateParam, formatBool request.Rentzestimate)]

/-- The query parameters `GetChart` builds. -/
def chartValues (z : zillow) (request : ChartRequest) : Values :=
  [(zwsIdParam, z.zwsId),
   (zpidParam, request.Zpid),
   (unitTypeParam, request.UnitType),
   (widthParam, itoa request.Width),
   (heightParam, itoa request.Height),
   (chartDurationParam, request.Duration)]

/-- The query parameters `GetComps` builds. -/
def compsValues (z : zillow) (request : CompsRequest) : Values :=
  [(zwsIdParam, z.zwsId),
   (zpidParam, request.Zpid),
   (countParam, itoa request.Count),
   (rentzestimateParam, formatBool request.Rentzestimate)]

section Operations

variable {F : Type} (parseF : String → Except String F) (f0 : F)

/-- Go `func (z *zillow) GetZestimate`.  `.ok r` models `(&result, nil)` and
`.error e` models `(nil, err)`. -/
def GetZestimate (fetch : Fetch) (z : zillow) (request : ZestimateRequest) :
    Except String (ZestimateResult F) :=
  zillow.get fetch z getZestimatePath (zestimateValues z request)
    (unmarshalZestimateResult parseF f0)

/-- Go `func (z *zillow) GetSearchResults`. -/
def GetSearchResults (fetch : Fetch) (z : zillow) (request : SearchRequest) :
    Except String (SearchResults F) :=
  zillow.get fetch z getSearchResults (searchValues z request)
    (unmarshalSearchResults parseF f0)

/-- Go `func (z *zillow) GetChart`. -/
def GetChart (fetch : Fetch) (z : zillow) (request : ChartRequest) :
    Except String ChartResult :=
  zillow.get fetch z getChart (chartValues z request) unmarshalChartResult

/-- Go `func (z *zillow) GetComps`. -/
def GetComps (fetch : Fetch) (z : zillow) (request : CompsRequest) :
    Except String (CompsResult F) :=
  zillow.get fetch z getComps (compsValues z request)
    (unmarshalCompsResult parseF f0)

end Operations

/-! ## Correctness of the decimal rendering -/

theorem natDigits_ne_nil (n : Nat) : natDigits n ≠ [] := by
  rw [natDigits]
  split <;> simp

theorem parseDigits_eq_go (cs : List Char) (h : cs ≠ []) :
    parseDigits cs = parseDigits.go cs 0 := by
  cases cs with
  | nil => exact absurd rfl h
  | cons c cs => rfl

theorem go_append (l1 l2 : List Char) (acc : Nat) :
    parseDigits.go (l1 ++ l2) acc =
      match parseDigits.go l1 acc with
      | none => none
      | some m => parseDigits.go l2 m := by
  induction l1 generalizing acc with
  | nil => rfl
  | cons c cs ih =>
    simp only [List.cons_append, parseDigits.go]
    cases digitVal c with
    | none => rfl
    | some d => exact ih (acc * 10 + d)

theorem digitVal_ofNat (d : Nat) (h : d < 10) :
    digitVal (Char.ofNat (48 + d)) = some d := by
  interval_cases d <;> rfl

theorem go_natDigits (n : Nat) : ∀ acc : Nat,
    parseDigits.go (natDigits n) acc = some (acc * 10 ^ (natDigits n).length + n) := by
  induction n using Nat.strong_induction_on with
  | _ n ih =>
    intro acc
    rw [natDigits]
    by_cases h : n < 10
    · rw [dif_pos h]
      simp only [parseDigits.go, digitVal_ofNat n h, List.length_cons, List.length_nil]
      simp [parseDigits.go]
    · rw [dif_neg h]
      have hd : n / 10 < n := Nat.div_lt_self (by omega) (by omega)
      rw [go_append]
      rw [ih (n / 10) hd acc]
      simp only [parseDigits.go, digitVal_ofNat (n % 10) (Nat.mod_lt n (by omega))]
      simp only [List.length_append, List.length_cons, List.length_nil]
      congr 1
      have hmod : 10 * (n / 10) + n % 10 = n := Nat.div_add_mod n 10
      ring_nf
      omega

theorem parseDigits_natDigits (n : Nat) : parseDigits (natDigits n) = some n := by
  rw [parseDigits_eq_go _ (natDigits_ne_nil n), go_natDigits n 0]
  simp

theorem natDigits_head (n : Nat) :
    ∃ d cs, d < 10 ∧ natDigits n = Char.ofNat (48 + d) :: cs := by
  induction n using Nat.strong_induction_on with
  | _ n ih =>
    rw [natDigits]
    by_cases h : n < 10
    · rw [dif_pos h]
      exact ⟨n, [], h, rfl⟩
    · rw [dif_neg h]
      obtain ⟨d, cs, hd, heq⟩ := ih (n / 10) (Nat.div_lt_self (by omega) (by omega))
      exact ⟨d, cs ++ [Char.ofNat (48 + n % 10)], hd, by rw [heq]; rfl⟩

theorem parseIntCore_cons (c : Char) (rest : List Char) (h1 : c ≠ '-') (h2 : c ≠ '+') :
    parseIntCore (String.mk (c :: rest)) = (parseDigits (c :: rest)).map (fun n => (n : Int)) := by
  show (if c = '-' then (parseDigits rest).map (fun n => -(n : Int))
        else if c = '+' then (parseDigits rest).map (fun n => (n : Int))
        else (parseDigits (c :: rest)).map (fun n => (n : Int))) =
      (parseDigits (c :: rest)).map (fun n => (n : Int))
  rw [if_neg h1, if_neg h2]

theorem parseIntCore_itoa (i : Int) : parseIntCore (itoa i) = some i := by
  by_cases h : i < 0
  · rw [itoa, if_pos h]
    show (parseDigits (natDigits i.natAbs)).map (fun n => -(n : Int)) = some i
    rw [parseDigits_natDigits]
    show some (-((i.natAbs : Nat) : Int)) = some i
    congr 1
    omega
  · rw [itoa, if_neg h]
    obtain ⟨d, cs, hd, heq⟩ := natDigits_head i.natAbs
    have hne : Char.ofNat (48 + d) ≠ '-' ∧ Char.ofNat (48 + d) ≠ '+' := by
      interval_cases d <;> exact ⟨by decide, by decide⟩
    rw [heq, parseIntCore_cons _ _ hne.1 hne.2, ← heq, parseDigits_natDigits]
    show some (((i.natAbs : Nat)) : Int) = some i
    congr 1
    omega

/-! ## Correctness of the key ordering `url.Values.Encode` produces -/

theorem lexLe_total (as bs : List Char) : lexLe as bs = true ∨ lexLe bs as = true := by
  induction as generalizing bs with
  | nil => left; rfl
  | cons a as ih =>
    cases bs with
    | nil => right; rfl
    | cons b bs =>
      by_cases hab : a.toNat < b.toNat
      · left; simp [lexLe, hab]
      · by_cases hba : b.toNat < a.toNat
        · right; simp [lexLe, hba]
        · rcases ih bs with h | h
          · left; simp [lexLe, hab, hba, h]
          · right; simp [lexLe, hab, hba, h]

theorem lexLe_cons_iff (a b : Char) (as bs : List Char) :
    lexLe (a :: as) (b :: bs) = true ↔
      a.toNat < b.toNat ∨ (a.toNat = b.toNat ∧ lexLe as bs = true) := by
  simp only [lexLe]
  by_cases h1 : a.toNat < b.toNat
  · simp [h1]
  · by_cases h2 : b.toNat < a.toNat
    · have hne : ¬ a.toNat = b.toNat := by omega
      simp [h1, h2, hne]
    · have heq : a.toNat = b.toNat := by omega
      simp [h1, h2, heq]

theorem lexLe_trans (as bs cs : List Char) (h1 : lexLe as bs = true)
    (h2 : lexLe bs cs = true) : lexLe as cs = true := by
  induction as generalizing bs cs with
  | nil => rfl
  | cons a as ih =>
    cases bs with
    | nil => simp [lexLe] at h1
    | cons b bs =>
      cases cs with
      | nil => simp [lexLe] at h2
      | cons c cs =>
        rw [lexLe_cons_iff] at h1 h2 ⊢
        rcases h1 with h1 | ⟨e1, r1⟩
        · rcases h2 with h2 | ⟨e2, r2⟩
          · left; omega
          · left; omega
        · rcases h2 with h2 | ⟨e2, r2⟩
          · left; omega
          · right; exact ⟨by omega, ih bs cs r1 r2⟩

theorem keyLe_total (a b : String) : keyLe a b = true ∨ keyLe b a = true :=
  lexLe_total a.toList b.toList

theorem keyLe_trans (a b c : String) (h1 : keyLe a b = true) (h2 : keyLe b c = true) :
    keyLe a c = true :=
  lexLe_trans _ _ _ h1 h2

theorem mem_insertValue (p x : String × String) (l : List (String × String))
    (hx : x ∈ insertValue p l) : x = p ∨ x ∈ l := by
  induction l with
  | nil => simpa [insertValue] using hx
  | cons q qs ih =>
    rw [insertValue] at hx
    by_cases h : keyLe p.1 q.1 = true
    · rw [if_pos h] at hx
      rcases List.mem_cons.mp hx with h1 | h1
      · exact Or.inl h1
      · exact Or.inr h1
    · rw [if_neg h] at hx
      rcases List.mem_cons.mp hx with h1 | h1
      · exact Or.inr (h1 ▸ List.mem_cons_self q qs)
      · rcases ih h1 with h2 | h2
        · exact Or.inl h2
        · exact Or.inr (List.mem_cons_of_mem q h2)

theorem pairwise_insertValue (p : String × String) (l : List (String × String))
    (hl : l.Pairwise (fun a b => keyLe a.1 b.1 = true)) :
    (insertValue p l).Pairwise (fun a b => keyLe a.1 b.1 = true) := by
  induction l with
  | nil => simp [insertValue]
  | cons q qs ih =>
    rcases List.pairwise_cons.mp hl with ⟨hq, hqs⟩
    rw [insertValue]
    by_cases h : keyLe p.1 q.1 = true
    · rw [if_pos h]
      refine List.pairwise_cons.mpr ⟨?_, hl⟩
      intro x hx
      rcases List.mem_cons.mp hx with h1 | h1
      · exact h1 ▸ h
      · exact keyLe_trans _ _ _ h (hq x h1)
    · rw [if_neg h]
      refine List.pairwise_cons.mpr ⟨?_, ih hqs⟩
      intro x hx
      rcases mem_insertValue p x qs hx with rfl | h1
      · exact (keyLe_total x.1 q.1).resolve_left h
      · exact hq x h1

theorem pairwise_sortValues (vs : List (String × String)) :
    (sortValues vs).Pairwise (fun a b => keyLe a.1 b.1 = true) := by
  induction vs with
  | nil => exact List.Pairwise.nil
  | cons p ps ih => exact pairwise_insertValue p (sortValues ps) ih

/-! ## The claims -/

/-- C8: for every API key string `k`, `NewZillow k` returns a client whose
stored API key is `k` and whose stored base URL is the `baseUrl` constant
(`"http://www.zillow.com/webservice/"`); the client state is nothing but
these two strings. -/
theorem newZillow_stores_key_and_default_base_url (k : String) :
    (NewZillow k).zwsId = k ∧ (NewZillow k).url = baseUrl ∧
      NewZillow k = zillow.mk k "http://www.zillow.com/webservice/" :=
  ⟨rfl, rfl, rfl⟩

/-- C1: for each of the four operations the query parameter set is exactly
the documented keys — always including the API key as `zws-Id` — and
nothing else; boolean fields are stringified as `"true"`/`"false"`,
integer fields via `itoa`, which the final conjunct proves to be a correct
base-10 decimal rendering (parsing the produced string as decimal gives
the integer back). -/
theorem query_params_exactly_documented (z : zillow) (zr : ZestimateRequest)
    (sr : SearchRequest) (cr : ChartRequest) (mr : CompsRequest) :
    ((zestimateValues z zr).map Prod.fst = ["zws-Id", "zpid", "rentzestimate"] ∧
      (zestimateValues z zr).lookup "zws-Id" = some z.zwsId ∧
      (zestimateValues z zr).lookup "zpid" = some zr.Zpid ∧
      (zestimateValues z zr).lookup "rentzestimate" =
        some (if zr.Rentzestimate then "true" else "false")) ∧
    ((searchValues z sr).map Prod.fst =
        ["zws-Id", "address", "citystatezip", "rentzestimate"] ∧
      (searchValues z sr).lookup "zws-Id" = some z.zwsId ∧
      (searchValues z sr).lookup "address" = some sr.Address ∧
      (searchValues z sr).lookup "citystatezip" = some sr.CityStateZip ∧
      (searchValues z sr).lookup "rentzestimate" =
        some (if sr.Rentzestimate then "true" else "false")) ∧
    ((chartValues z cr).map Prod.fst =
        ["zws-Id", "zpid", "unit-type", "width", "height", "chartDuration"] ∧
      (chartValues z cr).lookup "zws-Id" = some z.zwsId ∧
      (chartValues z cr).lookup "zpid" = some cr.Zpid ∧
      (chartValues z cr).lookup "unit-type" = some cr.UnitType ∧
      (chartValues z cr).lookup "width" = some (itoa cr.Width) ∧
      (chartValues z cr).lookup "height" = some (itoa cr.Height) ∧
      (chartValues z cr).lookup "chartDuration" = some cr.Duration) ∧
    ((compsValues z mr).map Prod.fst = ["zws-Id", "zpid", "count", "rentzestimate"] ∧
      (compsValues z mr).lookup "zws-Id" = some z.zwsId ∧
      (compsValues z mr).lookup "zpid" = some mr.Zpid ∧
      (compsValues z mr).lookup "count" = some (itoa mr.Count) ∧
      (compsValues z mr).lookup "rentzestimate" =
        some (if mr.Rentzestimate then "true" else "false")) ∧
    (∀ i : Int, parseIntCore (itoa i) = some i) :=
  ⟨⟨rfl, rfl, rfl, rfl⟩,
   ⟨rfl, rfl, rfl, rfl, rfl⟩,
   ⟨rfl, rfl, rfl, rfl, rfl, rfl, rfl⟩,
   ⟨rfl, rfl, rfl, rfl, rfl⟩,
   parseIntCore_itoa⟩

/-- C10: `url.Values.Encode` sorts the keys, so for each operation the
encoded query string lists its parameters in ascending byte-wise
lexicographic key order, giving one deterministic string per request: the
four equations exhibit the exact encoded string of each operation, the
`Pairwise` facts state the key order is sorted (for the four operations
and for every parameter list whatsoever). -/
theorem encoded_query_is_sorted_and_deterministic (z : zillow)
    (zr : ZestimateRequest) (sr : SearchRequest) (cr : ChartRequest)
    (mr : CompsRequest) :
    (encodeValues (zestimateValues z zr) =
      ("rentzestimate=" ++ queryEscape (formatBool zr.Rentzestimate) ++ "&") ++
        (("zpid=" ++ queryEscape zr.Zpid ++ "&") ++
          ("zws-Id=" ++ queryEscape z.zwsId))) ∧
    (encodeValues (searchValues z sr) =
      ("address=" ++ queryEscape sr.Address ++ "&") ++
        (("citystatezip=" ++ queryEscape sr.CityStateZip ++ "&") ++
          (("rentzestimate=" ++ queryEscape (formatBool sr.Rentzestimate) ++ "&") ++
            ("zws-Id=" ++ queryEscape z.zwsId)))) ∧
    (encodeValues (chartValues z cr) =
      ("chartDuration=" ++ queryEscape cr.Duration ++ "&") ++
        (("height=" ++ queryEscape (itoa cr.Height) ++ "&") ++
          (("unit-type=" ++ queryEscape cr.UnitType ++ "&") ++
            (("width=" ++ queryEscape (itoa cr.Width) ++ "&") ++
              (("zpid=" ++ queryEscape cr.Zpid ++ "&") ++
                ("zws-Id=" ++ queryEscape z.zwsId)))))) ∧
    (encodeValues (compsValues z mr) =
      ("count=" ++ queryEscape (itoa mr.Count) ++ "&") ++
        (("rentzestimate=" ++ queryEscape (formatBool mr.Rentzestimate) ++ "&") ++
          (("zpid=" ++ queryEscape mr.Zpid ++ "&") ++
            ("zws-Id=" ++ queryEscape z.zwsId)))) ∧
    ((sortValues (zestimateValues z zr)).map Prod.fst =
      ["rentzestimate", "zpid", "zws-Id"]) ∧
    ((sortValues (searchValues z sr)).map Prod.fst =
      ["address", "citystatezip", "rentzestimate", "zws-Id"]) ∧
    ((sortValues (chartValues z cr)).map Prod.fst =
      ["chartDuration", "height", "unit-type", "width", "zpid", "zws-Id"]) ∧
    ((sortValues (compsValues z mr)).map Prod.fst =
      ["count", "rentzestimate", "zpid", "zws-Id"]) ∧
    (List.Pairwise (fun a b => keyLe a b = true)
      ["rentzestimate", "zpid", "zws-Id"] ∧
     List.Pairwise (fun a b => keyLe a b = true)
      ["address", "citystatezip", "rentzestimate", "zws-Id"] ∧
     List.Pairwise (fun a b => keyLe a b = true)
      ["chartDuration", "height", "unit-type", "width", "zpid", "zws-Id"] ∧
     List.Pairwise (fun a b => keyLe a b = true)
      ["count", "rentzestimate", "zpid", "zws-Id"]) ∧
    (∀ vs : List (String × String),
      (sortValues vs).Pairwise (fun a b => keyLe a.1 b.1 = true)) :=
  ⟨rfl, rfl, rfl, rfl, rfl, rfl, rfl, rfl,
   ⟨by decide, by decide, by decide, by decide⟩,
   pairwise_sortValues⟩

/-- C2: every operation issues its GET at exactly
`<base-url>/<OperationPath>.htm?<query-string>`: the four equations unfold
the URL to that template over the client built by `NewZillow` (with the
single `/` the code concatenates between the stored base URL and the
path), the next conjunct fixes the path constants, and the four final
clauses prove each operation consults the transport at no other URL (two
transports agreeing on that one URL produce identical results). -/
theorem operations_use_exact_request_url {F : Type}
    (parseF : String → Except String F) (f0 : F) (k : String)
    (zr : ZestimateRequest) (sr : SearchRequest) (cr : ChartRequest)
    (mr : CompsRequest) :
    (requestUrl (NewZillow k) getZestimatePath (zestimateValues (NewZillow k) zr) =
      baseUrl ++ "/" ++ getZestimatePath ++ ".htm?" ++
        encodeValues (zestimateValues (NewZillow k) zr)) ∧
    (requestUrl (NewZillow k) getSearchResults (searchValues (NewZillow k) sr) =
      baseUrl ++ "/" ++ getSearchResults ++ ".htm?" ++
        encodeValues (searchValues (NewZillow k) sr)) ∧
    (requestUrl (NewZillow k) getChart (chartValues (NewZillow k) cr) =
      baseUrl ++ "/" ++ getChart ++ ".htm?" ++
        encodeValues (chartValues (NewZillow k) cr)) ∧
    (requestUrl (NewZillow k) getComps (compsValues (NewZillow k) mr) =
      baseUrl ++ "/" ++ getComps ++ ".htm?" ++
        encodeValues (compsValues (NewZillow k) mr)) ∧
    (getZestimatePath = "GetZestimate" ∧ getSearchResults = "GetSearchResults" ∧
      getChart = "GetChart" ∧ getComps = "GetComps" ∧
      baseUrl = "http://www.zillow.com/webservice/") ∧
    (∀ fetch fetch' : Fetch,
      fetch (requestUrl (NewZillow k) getZestimatePath (zestimateValues (NewZillow k) zr)) =
        fetch' (requestUrl (NewZillow k) getZestimatePath (zestimateValues (NewZillow k) zr)) →
      GetZestimate parseF f0 fetch (NewZillow k) zr =
        GetZestimate parseF f0 fetch' (NewZillow k) zr) ∧
    (∀ fetch fetch' : Fetch,
      fetch (requestUrl (NewZillow k) getSearchResults (searchValues (NewZillow k) sr)) =
        fetch' (requestUrl (NewZillow k) getSearchResults (searchValues (NewZillow k) sr)) →
      GetSearchResults parseF f0 fetch (NewZillow k) sr =
        GetSearchResults parseF f0 fetch' (NewZillow k) sr) ∧
    (∀ fetch fetch' : Fetch,
      fetch (requestUrl (NewZillow k) getChart (chartValues (NewZillow k) cr)) =
        fetch' (requestUrl (NewZillow k) getChart (chartValues (NewZillow k) cr)) →
      GetChart fetch (NewZillow k) cr = GetChart fetch' (NewZillow k) cr) ∧
    (∀ fetch fetch' : Fetch,
      fetch (requestUrl (NewZillow k) getComps (compsValues (NewZillow k) mr)) =
        fetch' (requestUrl (NewZillow k) getComps (compsValues (NewZillow k) mr)) →
      GetComps parseF f0 fetch (NewZillow k) mr =
        GetComps parseF f0 fetch' (NewZillow k) mr) := by
  refine ⟨rfl, rfl, rfl, rfl, ⟨rfl, rfl, rfl, rfl, rfl⟩, ?_, ?_, ?_, ?_⟩
  · intro fetch fetch' h
    simp only [GetZestimate, zillow.get, h]
  · intro fetch fetch' h
    simp only [GetSearchResults, zillow.get, h]
  · intro fetch fetch' h
    simp only [GetChart, zillow.get, h]
  · intro fetch fetch' h
    simp only [GetComps, zillow.get, h]

/-- C2 witness: the locality clauses applied at a concrete transport. -/
theorem operations_use_exact_request_url_witness :
    GetZestimate (F := Unit) (fun _ => Except.ok ()) ()
        (fun _ => Except.error "connection refused") (NewZillow "zws-key")
        ⟨"48749425", false⟩ =
      GetZestimate (fun _ => Except.ok ()) ()
        (fun _ => Except.error "connection refused") (NewZillow "zws-key")
        ⟨"48749425", false⟩ :=
  (operations_use_exact_request_url (fun _ => Except.ok ()) () "zws-key"
      ⟨"48749425", false⟩ ⟨"2114 Bigelow Ave", "Seattle, WA", false⟩
      ⟨"48749425", "dollar", 600, 300, "5years"⟩
      ⟨"48749425", 5, false⟩).2.2.2.2.2.1
    (fun _ => Except.error "connection refused")
    (fun _ => Except.error "connection refused") rfl

/-- C3: when the transport succeeds and the body decodes into the result
type, every operation returns that decoded result as a success, whatever
the decoded message block contains — the decoded value `r` is arbitrary,
so in particular any application-level error text, status code or
limit-warning flag inside it is passed through without becoming an
error. -/
theorem decoded_body_returned_without_message_inspection {F : Type}
    (parseF : String → Except String F) (f0 : F) (fetch : Fetch) (z : zillow) :
    (∀ (zr : ZestimateRequest) (resp : HttpResponse) (r : ZestimateResult F),
      fetch (requestUrl z getZestimatePath (zestimateValues z zr)) = .ok resp →
      decodeBody (unmarshalZestimateResult parseF f0) resp.body = .ok r →
      GetZestimate parseF f0 fetch z zr = .ok r) ∧
    (∀ (sr : SearchRequest) (resp : HttpResponse) (r : SearchResults F),
      fetch (requestUrl z getSearchResults (searchValues z sr)) = .ok resp →
      decodeBody (unmarshalSearchResults parseF f0) resp.body = .ok r →
      GetSearchResults parseF f0 fetch z sr = .ok r) ∧
    (∀ (cr : ChartRequest) (resp : HttpResponse) (r : ChartResult),
      fetch (requestUrl z getChart (chartValues z cr)) = .ok resp →
      decodeBody unmarshalChartResult resp.body = .ok r →
      GetChart fetch z cr = .ok r) ∧
    (∀ (mr : CompsRequest) (resp : HttpResponse) (r : CompsResult F),
      fetch (requestUrl z getComps (compsValues z mr)) = .ok resp →
      decodeBody (unmarshalCompsResult parseF f0) resp.body = .ok r →
      GetComps parseF f0 fetch z mr = .ok r) := by
  refine ⟨?_, ?_, ?_, ?_⟩
  · intro zr resp r h1 h2
    simp only [GetZestimate, zillow.get, h1]
    exact h2
  · intro sr resp r h1 h2
    simp only [GetSearchResults, zillow.get, h1]
    exact h2
  · intro cr resp r h1 h2
    simp only [GetChart, zillow.get, h1]
    exact h2
  · intro mr resp r h1 h2
    simp only [GetComps, zillow.get, h1]
    exact h2

/-- A stub body whose message block reports an upstream application-level
error (code 2, invalid ZWSID) inside an otherwise well-formed response. -/
def apiErrorStub : Xml :=
  .elem "zestimate" [] [
    .elem "message" [] [
      .elem "text" [] [.text "Error: invalid or missing ZWSID parameter"],
      .elem "code" [] [.text "2"]]]

/-- C3 witness: a body carrying upstream error code 2 still comes back as
a success whose message block the caller can inspect. -/
theorem decoded_body_returned_without_message_inspection_witness :
    GetZestimate (F := Unit) (fun _ => Except.ok ()) ()
        (fun _ => Except.ok ⟨200, Except.ok apiErrorStub⟩) (NewZillow "bad-key")
        ⟨"48749425", false⟩ =
      Except.ok ⟨zeroZestimateRequest,
        ⟨"Error: invalid or missing ZWSID parameter", 2, false⟩,
        zeroLinks, zeroAddress (), zeroZestimate, [], "", "", "", ""⟩ :=
  (decoded_body_returned_without_message_inspection (fun _ => Except.ok ()) ()
      (fun _ => Except.ok ⟨200, Except.ok apiErrorStub⟩) (NewZillow "bad-key")).1
    ⟨"48749425", false⟩ ⟨200, Except.ok apiErrorStub⟩ _ rfl rfl

/-- C4: when the transport succeeds but the body fails to decode —
malformed XML or a document that does not match the expected shape — every
operation returns that decode error unchanged, and no result value exists
(`Except.error` carries no result, the image of Go's `(nil, err)`). -/
theorem decode_errors_returned_unchanged {F : Type}
    (parseF : String → Except String F) (f0 : F) (fetch : Fetch) (z : zillow) :
    (∀ (zr : ZestimateRequest) (resp : HttpResponse) (e : String),
      fetch (requestUrl z getZestimatePath (zestimateValues z zr)) = .ok resp →
      decodeBody (unmarshalZestimateResult parseF f0) resp.body = .error e →
      GetZestimate parseF f0 fetch z zr = .error e) ∧
    (∀ (sr : SearchRequest) (resp : HttpResponse) (e : String),
      fetch (requestUrl z getSearchResults (searchValues z sr)) = .ok resp →
      decodeBody (unmarshalSearchResults parseF f0) resp.body = .error e →
      GetSearchResults parseF f0 fetch z sr = .error e) ∧
    (∀ (cr : ChartRequest) (resp : HttpResponse) (e : String),
      fetch (requestUrl z getChart (chartValues z cr)) = .ok resp →
      decodeBody unmarshalChartResult resp.body = .error e →
      GetChart fetch z cr = .error e) ∧
    (∀ (mr : CompsRequest) (resp : HttpResponse) (e : String),
      fetch (requestUrl z getComps (compsValues z mr)) = .ok resp →
      decodeBody (unmarshalCompsResult parseF f0) resp.body = .error e →
      GetComps parseF f0 fetch z mr = .error e) ∧
    (∀ e : String, decodeBody (unmarshalZestimateResult parseF f0) (.error e) = .error e) ∧
    (decodeBody (unmarshalZestimateResult parseF f0)
        (.ok (.elem "html" [] [])) =
      .error "expected element type <zestimate> but have <html>") := by
  refine ⟨?_, ?_, ?_, ?_, fun e => rfl, rfl⟩
  · intro zr resp e h1 h2
    simp only [GetZestimate, zillow.get, h1]
    exact h2
  · intro sr resp e h1 h2
    simp only [GetSearchResults, zillow.get, h1]
    exact h2
  · intro cr resp e h1 h2
    simp only [GetChart, zillow.get, h1]
    exact h2
  · intro mr resp e h1 h2
    simp only [GetComps, zillow.get, h1]
    exact h2

/-- C4 witness: a syntactically malformed body surfaces its XML error. -/
theorem decode_errors_returned_unchanged_witness :
    GetSearchResults (F := Unit) (fun _ => Except.ok ()) ()
        (fun _ => Except.ok ⟨200, Except.error "XML syntax error on line 1: unexpected EOF"⟩)
        (NewZillow "zws-key") ⟨"2114 Bigelow Ave", "Seattle, WA", false⟩ =
      Except.error "XML syntax error on line 1: unexpected EOF" :=
  (decode_errors_returned_unchanged (fun _ => Except.ok ()) ()
      (fun _ => Except.ok ⟨200, Except.error "XML syntax error on line 1: unexpected EOF"⟩)
      (NewZillow "zws-key")).2.1
    ⟨"2114 Bigelow Ave", "Seattle, WA", false⟩
    ⟨200, Except.error "XML syntax error on line 1: unexpected EOF"⟩ _ rfl rfl

/-- C5: a transport-level failure is returned to the caller unchanged by
every operation, with no result value (`Except.error` carries none). -/
theorem transport_errors_returned_unchanged {F : Type}
    (parseF : String → Except String F) (f0 : F) (fetch : Fetch) (z : zillow) :
    (∀ (zr : ZestimateRequest) (e : String),
      fetch (requestUrl z getZestimatePath (zestimateValues z zr)) = .error e →
      GetZestimate parseF f0 fetch z zr = .error e) ∧
    (∀ (sr : SearchRequest) (e : String),
      fetch (requestUrl z getSearchResults (searchValues z sr)) = .error e →
      GetSearchResults parseF f0 fetch z sr = .error e) ∧
    (∀ (cr : ChartRequest) (e : String),
      fetch (requestUrl z getChart (chartValues z cr)) = .error e →
      GetChart fetch z cr = .error e) ∧
    (∀ (mr : CompsRequest) (e : String),
      fetch (requestUrl z getComps (compsValues z mr)) = .error e →
      GetComps parseF f0 fetch z mr = .error e) := by
  refine ⟨?_, ?_, ?_, ?_⟩
  · intro zr e h
    simp only [GetZestimate, zillow.get, h]
  · intro sr e h
    simp only [GetSearchResults, zillow.get, h]
  · intro cr e h
    simp only [GetChart, zillow.get, h]
  · intro mr e h
    simp only [GetComps, zillow.get, h]

/-- C5 witness: a refused connection surfaces as that transport error. -/
theorem transport_errors_returned_unchanged_witness :
    GetChart (fun _ => Except.error "dial tcp 127.0.0.1:80: connection refused")
        (NewZillow "zws-key") ⟨"48749425", "dollar", 600, 300, "5years"⟩ =
      Except.error "dial tcp 127.0.0.1:80: connection refused" :=
  (transport_errors_returned_unchanged (F := Unit) (fun _ => Except.ok ()) ()
      (fun _ => Except.error "dial tcp 127.0.0.1:80: connection refused")
      (NewZillow "zws-key")).2.2.1
    ⟨"48749425", "dollar", 600, 300, "5years"⟩
    "dial tcp 127.0.0.1:80: connection refused" rfl

/-- C9: the shared `get` routine never reads the HTTP status code: two
successful responses with the same body but any two status codes yield
identical results (first four clauses), and a non-2xx response whose body
decodes is returned as a normal success (last four clauses). -/
theorem status_code_never_inspected {F : Type}
    (parseF : String → Except String F) (f0 : F) (z : zillow) :
    (∀ (fetch fetch' : Fetch) (zr : ZestimateRequest) (resp resp' : HttpResponse),
      resp.body = resp'.body →
      fetch (requestUrl z getZestimatePath (zestimateValues z zr)) = .ok resp →
      fetch' (requestUrl z getZestimatePath (zestimateValues z zr)) = .ok resp' →
      GetZestimate parseF f0 fetch z zr = GetZestimate parseF f0 fetch' z zr) ∧
    (∀ (fetch fetch' : Fetch) (sr : SearchRequest) (resp resp' : HttpResponse),
      resp.body = resp'.body →
      fetch (requestUrl z getSearchResults (searchValues z sr)) = .ok resp →
      fetch' (requestUrl z getSearchResults (searchValues z sr)) = .ok resp' →
      GetSearchResults parseF f0 fetch z sr = GetSearchResults parseF f0 fetch' z sr) ∧
    (∀ (fetch fetch' : Fetch) (cr : ChartRequest) (resp resp' : HttpResponse),
      resp.body = resp'.body →
      fetch (requestUrl z getChart (chartValues z cr)) = .ok resp →
      fetch' (requestUrl z getChart (chartValues z cr)) = .ok resp' →
      GetChart fetch z cr = GetChart fetch' z cr) ∧
    (∀ (fetch fetch' : Fetch) (mr : CompsRequest) (resp resp' : HttpResponse),
      resp.body = resp'.body →
      fetch (requestUrl z getComps (compsValues z mr)) = .ok resp →
      fetch' (requestUrl z getComps (compsValues z mr)) = .ok resp' →
      GetComps parseF f0 fetch z mr = GetComps parseF f0 fetch' z mr) ∧
    (∀ (fetch : Fetch) (zr : ZestimateRequest) (code : Nat)
        (body : Except String Xml) (r : ZestimateResult F),
      ¬(200 ≤ code ∧ code ≤ 299) →
      fetch (requestUrl z getZestimatePath (zestimateValues z zr)) = .ok ⟨code, body⟩ →
      decodeBody (unmarshalZestimateResult parseF f0) body = .ok r →
      GetZestimate parseF f0 fetch z zr = .ok r) ∧
    (∀ (fetch : Fetch) (sr : SearchRequest) (code : Nat)
        (body : Except String Xml) (r : SearchResults F),
      ¬(200 ≤ code ∧ code ≤ 299) →
      fetch (requestUrl z getSearchResults (searchValues z sr)) = .ok ⟨code, body⟩ →
      decodeBody (unmarshalSearchResults parseF f0) body = .ok r →
      GetSearchResults parseF f0 fetch z sr = .ok r) ∧
    (∀ (fetch : Fetch) (cr : ChartRequest) (code : Nat)
        (body : Except String Xml) (r : ChartResult),
      ¬(200 ≤ code ∧ code ≤ 299) →
      fetch (requestUrl z getChart (chartValues z cr)) = .ok ⟨code, body⟩ →
      decodeBody unmarshalChartResult body = .ok r →
      GetChart fetch z cr = .ok r) ∧
    (∀ (fetch : Fetch) (mr : CompsRequest) (code : Nat)
        (body : Except String Xml) (r : CompsResult F),
      ¬(200 ≤ code ∧ code ≤ 299) →
      fetch (requestUrl z getComps (compsValues z mr)) = .ok ⟨code, body⟩ →
      decodeBody (unmarshalCompsResult parseF f0) body = .ok r →
      GetComps parseF f0 fetch z mr = .ok r) := by
  refine ⟨?_, ?_, ?_, ?_, ?_, ?_, ?_, ?_⟩
  · intro fetch fetch' zr resp resp' hbody h1 h2
    simp only [GetZestimate, zillow.get, h1, h2, hbody]
  · intro fetch fetch' sr resp resp' hbody h1 h2
    simp only [GetSearchResults, zillow.get, h1, h2, hbody]
  · intro fetch fetch' cr resp resp' hbody h1 h2
    simp only [GetChart, zillow.get, h1, h2, hbody]
  · intro fetch fetch' mr resp resp' hbody h1 h2
    simp only [GetComps, zillow.get, h1, h2, hbody]
  · intro fetch zr code body r hcode h1 h2
    simp only [GetZestimate, zillow.get, h1]
    exact h2
  · intro fetch sr code body r hcode h1 h2
    simp only [GetSearchResults, zillow.get, h1]
    exact h2
  · intro fetch cr code body r hcode h1 h2
    simp only [GetChart, zillow.get, h1]
    exact h2
  · intro fetch mr code body r hcode h1 h2
    simp only [GetComps, zillow.get, h1]
    exact h2

/-- A minimal well-formed chart response body. -/
def chartStub : Xml :=
  .elem "chart" [] [
    .elem "response" [] [
      .elem "url" [] [.text "http://www.zillow.com/app?chart=48749425"]]]

/-- C9 witness: an HTTP 404 response whose body is a well-formed chart
document is returned as a normal success. -/
theorem status_code_never_inspected_witness :
    GetChart (fun _ => Except.ok ⟨404, Except.ok chartStub⟩) (NewZillow "zws-key")
        ⟨"48749425", "dollar", 600, 300, "5years"⟩ =
      Except.ok ⟨zeroChartRequest, zeroMessage,
        "http://www.zillow.com/app?chart=48749425"⟩ :=
  (status_code_never_inspected (F := Unit) (fun _ => Except.ok ()) ()
      (NewZillow "zws-key")).2.2.2.2.2.2.1
    (fun _ => Except.ok ⟨404, Except.ok chartStub⟩)
    ⟨"48749425", "dollar", 600, 300, "5years"⟩ 404 (Except.ok chartStub) _
    (by decide) rfl rfl

/-- The stub valuation-estimate response: amount 258000 USD, valuation
range 231000–278000, for property 48749425. -/
def zestimateStub : Xml :=
  .elem "zestimate" [] [
    .elem "request" [] [
      .elem "zpid" [] [.text "48749425"],
      .elem "rentzestimate" [] [.text "false"]],
    .elem "message" [] [
      .elem "text" [] [.text "Request successfully processed"],
      .elem "code" [] [.text "0"]],
    .elem "response" [] [
      .elem "links" [] [
        .elem "homedetails" [] [
          .text "http://www.zillow.com/homedetails/48749425_zpid/"],
        .elem "mapthishome" [] [.text "http://www.zillow.com/homes/48749425_zpid/"],
        .elem "comparables" [] [
          .text "http://www.zillow.com/homes/comps/48749425_zpid/"]],
      .elem "address" [] [
        .elem "street" [] [.text "2114 Bigelow Ave N"],
        .elem "zipcode" [] [.text "98109"],
        .elem "city" [] [.text "SEATTLE"],
        .elem "state" [] [.text "WA"]],
      .elem "zestimate" [] [
        .elem "amount" [("currency", "USD")] [.text "258000"],
        .elem "last-updated" [] [.text "11/03/2009"],
        .elem "valueChange" [("duration", "30"), ("currency", "USD")] [.text "-2000"],
        .elem "valuationRange" [] [
          .elem "low" [("currency", "USD")] [.text "231000"],
          .elem "high" [("currency", "USD")] [.text "278000"]],
        .elem "percentile" [] [.text "0"]],
      .elem "regions" [] [
        .elem "zipcode-id" [] [.text "99569"],
        .elem "city-id" [] [.text "16037"],
        .elem "county-id" [] [.text "207"],
        .elem "state-id" [] [.text "59"]]]]

/-- C6: decoding the stub valuation-estimate response for the request
`{Zpid := "48749425", Rentzestimate := false}` yields a result whose
amount is 258000 with currency `"USD"` and whose valuation range is
exactly 231000–278000 (the remaining conjuncts pin the echoed request and
a few surrounding fields). -/
theorem zestimate_stub_round_trip {F : Type}
    (parseF : String → Except String F) (f0 : F) :
    ∃ r : ZestimateResult F,
      GetZestimate parseF f0 (fun _ => .ok ⟨200, .ok zestimateStub⟩)
          (NewZillow "zws-key") ⟨"48749425", false⟩ = .ok r ∧
      r.Zestimate.Amount.Value = 258000 ∧
      r.Zestimate.Amount.Currency = "USD" ∧
      r.Zestimate.Low.Value = 231000 ∧
      r.Zestimate.High.Value = 278000 ∧
      r.Zestimate.Low.Currency = "USD" ∧
      r.Zestimate.High.Currency = "USD" ∧
      r.Zestimate.ValueChange = ⟨30, "USD", -2000⟩ ∧
      r.Request = ⟨"48749425", false⟩ ∧
      r.Address.Street = "2114 Bigelow Ave N" ∧
      r.Message.Code = 0 ∧
      r.ZipcodeID = "99569" :=
  ⟨_, rfl, rfl, rfl, rfl, rfl, rfl, rfl, rfl, rfl, rfl, rfl, rfl⟩

/-- One comparable element of the stub comparables response: a `score`
attribute and a property identifier. -/
def compStub (score zpid : String) : Xml :=
  .elem "comp" [("score", score)] [
    .elem "zpid" [] [.text zpid]]

/-- The stub comparables response: one principal property and exactly
five `comp` elements, in document order, with the given score attributes. -/
def compsStub (s1 s2 s3 s4 s5 : String) : Xml :=
  .elem "comps" [] [
    .elem "request" [] [
      .elem "zpid" [] [.text "48749425"],
      .elem "count" [] [.text "5"],
      .elem "rentzestimate" [] [.text "false"]],
    .elem "message" [] [
      .elem "text" [] [.text "Request successfully processed"],
      .elem "code" [] [.text "0"]],
    .elem "response" [] [
      .elem "properties" [] [
        .elem "principal" [] [
          .elem "zpid" [] [.text "48749425"],
          .elem "zestimate" [] [
            .elem "amount" [("currency", "USD")] [.text "258000"]]],
        .elem "comparables" [] [
          compStub s1 "89210365",
          compStub s2 "89210494",
          compStub s3 "89210159",
          compStub s4 "89210483",
          compStub s5 "89210294"]]]]

/-- C7: decoding the stub comparables response for the request
`{Zpid := "48749425", Count := 5, Rentzestimate := false}` yields exactly
5 comparables, in the document order of the `comp` elements, each with
the parsed value of that element's `score` attribute. -/
theorem comps_stub_preserves_count_order_scores {F : Type}
    (parseF : String → Except String F) (f0 : F)
    (s1 s2 s3 s4 s5 : String) (f1 f2 f3 f4 f5 : F)
    (h1 : parseF s1 = .ok f1) (h2 : parseF s2 = .ok f2)
    (h3 : parseF s3 = .ok f3) (h4 : parseF s4 = .ok f4)
    (h5 : parseF s5 = .ok f5) :
    ∃ r : CompsResult F,
      GetComps parseF f0
          (fun _ => .ok ⟨200, .ok (compsStub s1 s2 s3 s4 s5)⟩)
          (NewZillow "zws-key") ⟨"48749425", 5, false⟩ = .ok r ∧
      r.Comparables.length = 5 ∧
      r.Comparables.map Comp.Score = [f1, f2, f3, f4, f5] ∧
      r.Comparables.map Comp.Zpid =
        ["89210365", "89210494", "89210159", "89210483", "89210294"] ∧
      r.Principal.Zpid = "48749425" ∧
      r.Request = ⟨"48749425", 5, false⟩ := by
  have hc : ∀ (s : String) (f : F) (zpid : String), parseF s = .ok f →
      unmarshalComp parseF f0 (compStub s zpid) =
        .ok ⟨f, zpid, zeroLinks, zeroAddress f0, zeroZestimate⟩ := by
    intro s f zpid h
    show (parseF s).bind (fun score =>
        Except.ok (⟨score, zpid, zeroLinks, zeroAddress f0, zeroZestimate⟩ : Comp F)) =
      Except.ok ⟨f, zpid, zeroLinks, zeroAddress f0, zeroZestimate⟩
    rw [h]
    rfl
  have hm : mapExcept (unmarshalComp parseF f0)
      [compStub s1 "89210365", compStub s2 "89210494", compStub s3 "89210159",
       compStub s4 "89210483", compStub s5 "89210294"] =
      .ok [⟨f1, "89210365", zeroLinks, zeroAddress f0, zeroZestimate⟩,
        ⟨f2, "89210494", zeroLinks, zeroAddress f0, zeroZestimate⟩,
        ⟨f3, "89210159", zeroLinks, zeroAddress f0, zeroZestimate⟩,
        ⟨f4, "89210483", zeroLinks, zeroAddress f0, zeroZestimate⟩,
        ⟨f5, "89210294", zeroLinks, zeroAddress f0, zeroZestimate⟩] := by
    simp only [mapExcept, hc s1 f1 "89210365" h1, hc s2 f2 "89210494" h2,
      hc s3 f3 "89210159" h3, hc s4 f4 "89210483" h4, hc s5 f5 "89210294" h5]
    rfl
  refine ⟨⟨⟨"48749425", 5, false⟩, ⟨"Request successfully processed", 0, false⟩,
    ⟨"48749425", zeroLinks, zeroAddress f0,
      ⟨⟨"USD", 258000⟩, "", zeroValueChange, zeroValue, zeroValue, ""⟩⟩,
    [⟨f1, "89210365", zeroLinks, zeroAddress f0, zeroZestimate⟩,
     ⟨f2, "89210494", zeroLinks, zeroAddress f0, zeroZestimate⟩,
     ⟨f3, "89210159", zeroLinks, zeroAddress f0, zeroZestimate⟩,
     ⟨f4, "89210483", zeroLinks, zeroAddress f0, zeroZestimate⟩,
     ⟨f5, "89210294", zeroLinks, zeroAddress f0, zeroZestimate⟩]⟩,
    ?_, rfl, rfl, rfl, rfl, rfl⟩
  show (mapExcept (unmarshalComp parseF f0)
      [compStub s1 "89210365", compStub s2 "89210494", compStub s3 "89210159",
       compStub s4 "89210483", compStub s5 "89210294"]).bind
      (fun cs => Except.ok
        (⟨⟨"48749425", 5, false⟩, ⟨"Request successfully processed", 0, false⟩,
          ⟨"48749425", zeroLinks, zeroAddress f0,
            ⟨⟨"USD", 258000⟩, "", zeroValueChange, zeroValue, zeroValue, ""⟩⟩,
          cs⟩ : CompsResult F)) = _
  rw [hm]
  rfl

/-- C7 witness: the comparables scenario at concrete score strings, with
the float parser instantiated to the identity on strings. -/
theorem comps_stub_preserves_count_order_scores_witness :
    ∃ r : CompsResult String,
      GetComps (fun s => Except.ok s) ""
          (fun _ => .ok ⟨200,
            .ok (compsStub "0.9545" "0.9289" "0.9145" "0.8956" "0.8682")⟩)
          (NewZillow "zws-key") ⟨"48749425", 5, false⟩ = .ok r ∧
      r.Comparables.length = 5 ∧
      r.Comparables.map Comp.Score = ["0.9545", "0.9289", "0.9145", "0.8956", "0.8682"] ∧
      r.Comparables.map Comp.Zpid =
        ["89210365", "89210494", "89210159", "89210483", "89210294"] ∧
      r.Principal.Zpid = "48749425" ∧
      r.Request = ⟨"48749425", 5, false⟩ :=
  comps_stub_preserves_count_order_scores (fun s => Except.ok s) ""
    "0.9545" "0.9289" "0.9145" "0.8956" "0.8682"
    "0.9545" "0.9289" "0.9145" "0.8956" "0.8682" rfl rfl rfl rfl rfl

end ZillowClient
